import Mathlib

/-
Verification of the deferred tabular-source abstraction and the template-based
expression compiler of this repository (py-polars HDF5 scan functions and the
placeholder expression utility).

The development shallowly embeds the two source files:
  * src/py-polars/src/polars/_utils/TC_expressions.py   (trans_func)
  * src/py-polars/polars/io/hdf5/functions.py           (read_hdf5, scan_hdf5,
    _scan_hdf5_impl)
Pure Python fragments are translated directly; collaborator code of the
repository that is not under src/ (the polars expression engine, the lazy-frame
engine primitives, and polars._utils helpers) is modelled from the spec, with a
doc comment saying so on each such definition.
-/

namespace PolarsHdf5

/-! Character helpers.  The quote and brace characters are written by code
point to keep the embedding free of literal quote characters. -/

def chQuote : Char := Char.ofNat 39

def chLBrace : Char := Char.ofNat 123

def chRBrace : Char := Char.ofNat 125

/-- A single-quote character as a one-character string. -/
def q : String := String.mk [chQuote]

/-- Word characters of the regular expression class backslash-w, as used by
the placeholder pattern in trans_func (ASCII letters, digits, underscore). -/
def isWordChar (c : Char) : Bool := c.isAlphanum || c = '_'

/-- Characters that may start a Python identifier. -/
def isIdentStart (c : Char) : Bool := c.isAlpha || c = '_'

def digitsToNat (cs : List Char) : Nat :=
  cs.foldl (fun a c => a * 10 + (c.toNat - 48)) 0

/-! Data model: realized tables. -/

/-- A realized column: a name and its (integer) data. -/
structure Column where
  name : String
  data : List Int
deriving DecidableEq, Repr

/-- A realized in-memory table, as produced by materialization. -/
structure DataFrame where
  cols : List Column
deriving DecidableEq, Repr

def DataFrame.names (df : DataFrame) : List String :=
  df.cols.map Column.name

def DataFrame.height (df : DataFrame) : Nat :=
  match df.cols with
  | [] => 0
  | c :: _ => c.data.length

/-- First column carrying the given name, if any. -/
def DataFrame.getCol (df : DataFrame) (n : String) : Option Column :=
  df.cols.find? (fun c => decide (c.name = n))

/-! Error model.  `Err` is the unified error universe of the development: the
Python exceptions the embedded code can raise, the engine-side errors, and the
error categories named by the spec (so that the spec claims are statable). -/

inductive Err where
  | attributeError (msg : String)
  | nameError (msg : String)
  | typeError (msg : String)
  | parseError (msg : String)
  | indexError (msg : String)
  | unknownColumnReference (col : String) (schema : List String)
  | columnIndexOutOfRange (i : Int) (n : Nat)
  | unsupportedExpressionToken (tok : String)
  | invalidSourceKind (msg : String)
  | engineExecutionError (msg : String)
deriving DecidableEq, Repr

/-- Errors that Python evaluation of the rewritten template text can raise
(the exception kinds reachable from the eval call in trans_func). -/
inductive PyErr where
  | nameErr (msg : String)
  | attrErr (msg : String)
  | typeErr (msg : String)
  | parseErr (msg : String)
deriving DecidableEq, Repr

def PyErr.toErr : PyErr → Err
  | .nameErr m => .nameError m
  | .attrErr m => .attributeError m
  | .typeErr m => .typeError m
  | .parseErr m => .parseError m

/-- True exactly on the spec error category `UnsupportedExpressionToken`. -/
def Err.isUnsupportedTok : Err → Bool
  | .unsupportedExpressionToken _ => true
  | _ => false

/-! Engine expressions.  `PlExpr` models the polars expression objects
(pl.col / pl.lit values, their arithmetic, and alias). -/

/-- Modelled from the spec: the external engine expression AST (§6
engine.parseRestrictedExpression output shape); the polars `Expr` class is
engine code not under src/.  Constructors cover the expression surface the
repository code builds: column references, integer literals, arithmetic, and
alias. -/
inductive PlExpr where
  | col (name : String)
  | lit (v : Int)
  | add (a b : PlExpr)
  | sub (a b : PlExpr)
  | mul (a b : PlExpr)
  | alias (e : PlExpr) (name : String)
deriving DecidableEq, Repr

/-- Column names referenced by an engine expression, left to right. -/
def PlExpr.refs : PlExpr → List String
  | .col n => [n]
  | .lit _ => []
  | .add a b => a.refs ++ b.refs
  | .sub a b => a.refs ++ b.refs
  | .mul a b => a.refs ++ b.refs
  | .alias e _ => e.refs

/-- Modelled from the spec: the output-column name of a bound expression
(polars naming rules are engine code not under src/).  An alias sets the name;
a column reference is named after the column; arithmetic keeps the left
operand name; a bare literal is named literal. -/
def PlExpr.outputName : PlExpr → String
  | .col n => n
  | .lit _ => "literal"
  | .add a _ => a.outputName
  | .sub a _ => a.outputName
  | .mul a _ => a.outputName
  | .alias _ n => n

/-- Modelled from the spec: elementwise engine evaluation of a bound
expression against a table (§6 engine.bindAndEval); evaluation is total once
every referenced column exists (the binding check below runs first). -/
def PlExpr.evalPure (df : DataFrame) : PlExpr → List Int
  | .col n => ((df.getCol n).map Column.data).getD []
  | .lit v => List.replicate df.height v
  | .add a b => List.zipWith (· + ·) (a.evalPure df) (b.evalPure df)
  | .sub a b => List.zipWith (· - ·) (a.evalPure df) (b.evalPure df)
  | .mul a b => List.zipWith (· * ·) (a.evalPure df) (b.evalPure df)
  | .alias e _ => e.evalPure df

/-- First referenced column that is absent from the schema, if any. -/
def firstMissing (refs names : List String) : Option String :=
  refs.find? (fun c => decide (c ∉ names))

/-- Replace the same-named column in place, or append a new one at the end. -/
def updateOrAppend (cols : List Column) (name : String) (vals : List Int) :
    List Column :=
  if cols.any (fun c => decide (c.name = name)) then
    cols.map (fun c => if c.name = name then Column.mk name vals else c)
  else cols ++ [Column.mk name vals]

/-- Modelled from the spec: `DataFrame.with_columns` of polars is engine code
not under src/.  Per §4.5 steps 4 and 5: bind the expression to the schema —
an unresolvable column reference fails with UnknownColumnReference naming the
column and the available schema, before evaluation — then evaluate and attach
the result under the expression output name, replacing a same-named column in
place and otherwise appending at the end. -/
def DataFrame.with_columns (df : DataFrame) (e : PlExpr) : Except Err DataFrame :=
  match firstMissing e.refs df.names with
  | some c => .error (.unknownColumnReference c df.names)
  | none => .ok (DataFrame.mk (updateOrAppend df.cols e.outputName (e.evalPure df)))

/-! Placeholder rewriting.  trans_func first runs
re.sub on the template, turning every occurrence of the pattern
brace-(word+)-brace into pl.col(quote word quote). -/

/-- One emitted replacement: pl.col( quote w quote ). -/
def plColOf (w : List Char) : List Char :=
  "pl.col(".data ++ [chQuote] ++ w ++ [chQuote] ++ [')']

/-- Fueled scanner for the substitution; the fuel strictly exceeds the number
of characters still to scan, so the zero case is unreachable from
`rewritePlaceholders`. -/
def rewriteFuel : Nat → List Char → List Char
  | 0, cs => cs
  | _ + 1, [] => []
  | fu + 1, c :: rest =>
    if c = chLBrace then
      match rest.dropWhile isWordChar with
      | c2 :: rest2 =>
        if c2 = chRBrace && !(rest.takeWhile isWordChar).isEmpty then
          plColOf (rest.takeWhile isWordChar) ++ rewriteFuel fu rest2
        else c :: rewriteFuel fu rest
      | [] => c :: rewriteFuel fu rest
    else c :: rewriteFuel fu rest

/-- The re.sub step of trans_func: rewrite every brace-delimited word
placeholder into a pl.col reference; all other text is left unchanged. -/
def rewritePlaceholders (s : String) : String :=
  String.mk (rewriteFuel (s.data.length + 1) s.data)

/-! Python expression evaluation.  The eval call of trans_func hands the
rewritten text to the general-purpose Python evaluator with the namespace
mapping pl to the polars module.  The evaluator is embedded as a lexer,
a recursive-descent parser for the Python expression grammar fragment the
rewritten templates can reach (names, attribute access, calls, string and
integer literals, additive and multiplicative operators, parentheses), and an
evaluator over Python runtime values.  Two conservative deviations from CPython,
both of which only remove behaviour an attacker could use (so the safety
findings hold a fortiori): builtins are not injected into the namespace (only
the name pl resolves), and object attribute tables list only the attributes
the repository code exercises. -/

inductive Tok where
  | ident (s : String)
  | num (n : Nat)
  | strLit (s : String)
  | dot
  | lparen
  | rparen
  | comma
  | plus
  | minus
  | star
deriving DecidableEq, Repr

/-- Fueled lexer for the Python expression fragment. -/
def lexFuel : Nat → List Char → Except PyErr (List Tok)
  | 0, _ => .error (.parseErr "lexer out of fuel")
  | _ + 1, [] => .ok []
  | fu + 1, c :: cs =>
    if c = ' ' then lexFuel fu cs
    else if c = chQuote then
      match cs.dropWhile (fun d => decide (d ≠ chQuote)) with
      | [] => .error (.parseErr "unterminated string literal")
      | _ :: rest =>
        match lexFuel fu rest with
        | .error e => .error e
        | .ok ts => .ok (.strLit (String.mk (cs.takeWhile (fun d => decide (d ≠ chQuote)))) :: ts)
    else if c.isDigit then
      match lexFuel fu (cs.dropWhile Char.isDigit) with
      | .error e => .error e
      | .ok ts => .ok (.num (digitsToNat ((c :: cs).takeWhile Char.isDigit)) :: ts)
    else if isIdentStart c then
      match lexFuel fu (cs.dropWhile isWordChar) with
      | .error e => .error e
      | .ok ts => .ok (.ident (String.mk ((c :: cs).takeWhile isWordChar)) :: ts)
    else if c = '.' then (lexFuel fu cs).map (Tok.dot :: ·)
    else if c = '(' then (lexFuel fu cs).map (Tok.lparen :: ·)
    else if c = ')' then (lexFuel fu cs).map (Tok.rparen :: ·)
    else if c = ',' then (lexFuel fu cs).map (Tok.comma :: ·)
    else if c = '+' then (lexFuel fu cs).map (Tok.plus :: ·)
    else if c = '-' then (lexFuel fu cs).map (Tok.minus :: ·)
    else if c = '*' then (lexFuel fu cs).map (Tok.star :: ·)
    else .error (.parseErr "unexpected character")

def lexTokens (s : String) : Except PyErr (List Tok) :=
  lexFuel (s.data.length + 1) s.data

/-- Binary operators of the embedded fragment. -/
inductive BOp where
  | add
  | sub
  | mul
deriving DecidableEq, Repr

/-- Python expression AST (the fragment reachable from rewritten templates). -/
inductive PyExpr where
  | name (s : String)
  | num (n : Nat)
  | strLit (s : String)
  | attr (e : PyExpr) (fld : String)
  | call (fn : PyExpr) (args : List PyExpr)
  | binop (op : BOp) (l r : PyExpr)
deriving Repr

mutual

/-- Additive level: term (plus or minus term)*, left associative. -/
def parseAdd : Nat → List Tok → Except PyErr (PyExpr × List Tok)
  | 0, _ => .error (.parseErr "parser out of fuel")
  | fu + 1, ts =>
    match parseMul fu ts with
    | .error e => .error e
    | .ok (l, ts1) => parseAddRest fu l ts1

def parseAddRest : Nat → PyExpr → List Tok → Except PyErr (PyExpr × List Tok)
  | 0, _, _ => .error (.parseErr "parser out of fuel")
  | fu + 1, l, Tok.plus :: ts =>
    match parseMul fu ts with
    | .error e => .error e
    | .ok (x, ts1) => parseAddRest fu (.binop .add l x) ts1
  | fu + 1, l, Tok.minus :: ts =>
    match parseMul fu ts with
    | .error e => .error e
    | .ok (x, ts1) => parseAddRest fu (.binop .sub l x) ts1
  | _ + 1, l, ts => .ok (l, ts)

/-- Multiplicative level: trailer (star trailer)*, left associative. -/
def parseMul : Nat → List Tok → Except PyErr (PyExpr × List Tok)
  | 0, _ => .error (.parseErr "parser out of fuel")
  | fu + 1, ts =>
    match parseAtomTrail fu ts with
    | .error e => .error e
    | .ok (l, ts1) => parseMulRest fu l ts1

def parseMulRest : Nat → PyExpr → List Tok → Except PyErr (PyExpr × List Tok)
  | 0, _, _ => .error (.parseErr "parser out of fuel")
  | fu + 1, l, Tok.star :: ts =>
    match parseAtomTrail fu ts with
    | .error e => .error e
    | .ok (x, ts1) => parseMulRest fu (.binop .mul l x) ts1
  | _ + 1, l, ts => .ok (l, ts)

def parseAtomTrail : Nat → List Tok → Except PyErr (PyExpr × List Tok)
  | 0, _ => .error (.parseErr "parser out of fuel")
  | fu + 1, ts =>
    match parseAtom fu ts with
    | .error e => .error e
    | .ok (a, ts1) => parseTrail fu a ts1

def parseAtom : Nat → List Tok → Except PyErr (PyExpr × List Tok)
  | 0, _ => .error (.parseErr "parser out of fuel")
  | fu + 1, ts =>
    match ts with
    | Tok.ident s :: r => .ok (.name s, r)
    | Tok.num n :: r => .ok (.num n, r)
    | Tok.strLit s :: r => .ok (.strLit s, r)
    | Tok.lparen :: r =>
      match parseAdd fu r with
      | .error e => .error e
      | .ok (e, Tok.rparen :: r2) => .ok (e, r2)
      | .ok (_, _) => .error (.parseErr "expected closing parenthesis")
    | _ => .error (.parseErr "invalid expression atom")

/-- Trailers: attribute access and call argument lists, applied iteratively. -/
def parseTrail : Nat → PyExpr → List Tok → Except PyErr (PyExpr × List Tok)
  | 0, _, _ => .error (.parseErr "parser out of fuel")
  | fu + 1, a, Tok.dot :: Tok.ident s :: r => parseTrail fu (.attr a s) r
  | _ + 1, _, Tok.dot :: _ => .error (.parseErr "expected attribute name after dot")
  | fu + 1, a, Tok.lparen :: Tok.rparen :: r => parseTrail fu (.call a []) r
  | fu + 1, a, Tok.lparen :: r =>
    match parseArgsRest fu r with
    | .error e => .error e
    | .ok (args, ts1) => parseTrail fu (.call a args) ts1
  | _ + 1, a, ts => .ok (a, ts)

/-- Comma-separated argument expressions up to the closing parenthesis. -/
def parseArgsRest : Nat → List Tok → Except PyErr (List PyExpr × List Tok)
  | 0, _ => .error (.parseErr "parser out of fuel")
  | fu + 1, ts =>
    match parseAdd fu ts with
    | .error e => .error e
    | .ok (e, Tok.comma :: r) =>
      match parseArgsRest fu r with
      | .error err => .error err
      | .ok (es, ts2) => .ok (e :: es, ts2)
    | .ok (e, Tok.rparen :: r) => .ok ([e], r)
    | .ok (_, _) => .error (.parseErr "expected comma or closing parenthesis")

end

/-- Python runtime values reachable while evaluating a rewritten template in
the namespace mapping pl to the polars module. -/
inductive PyVal where
  | module
  | colFn
  | litFn
  | boundAlias (e : PlExpr)
  | expr (e : PlExpr)
  | int (n : Int)
  | str (s : String)
deriving DecidableEq, Repr

/-- Python attribute access on the modelled runtime values.  Attribute tables
are restricted to the attributes the repository code exercises (pl.col,
pl.lit, Expr.alias); everything else raises AttributeError, as CPython does
for genuinely absent attributes. -/
def getattr : PyVal → String → Except PyErr PyVal
  | .module, a =>
    if a = "col" then .ok .colFn
    else if a = "lit" then .ok .litFn
    else .error (.attrErr ("module polars has no attribute " ++ a))
  | .expr e, a =>
    if a = "alias" then .ok (.boundAlias e)
    else .error (.attrErr ("Expr object has no attribute " ++ a))
  | .int _, a => .error (.attrErr ("int object has no attribute " ++ a))
  | .str _, a => .error (.attrErr ("str object has no attribute " ++ a))
  | .colFn, a => .error (.attrErr ("function object has no attribute " ++ a))
  | .litFn, a => .error (.attrErr ("function object has no attribute " ++ a))
  | .boundAlias _, a => .error (.attrErr ("method object has no attribute " ++ a))

/-- Calling a modelled runtime value. -/
def applyCall : PyVal → List PyVal → Except PyErr PyVal
  | .colFn, [.str s] => .ok (.expr (.col s))
  | .colFn, _ => .error (.typeErr "col expects a single string name")
  | .litFn, [.int n] => .ok (.expr (.lit n))
  | .litFn, _ => .error (.typeErr "lit argument shape not modelled")
  | .boundAlias e, [.str s] => .ok (.expr (.alias e s))
  | .boundAlias _, _ => .error (.typeErr "alias expects a single string name")
  | _, _ => .error (.typeErr "object is not callable")

def intBOp : BOp → Int → Int → Int
  | .add, a, b => a + b
  | .sub, a, b => a - b
  | .mul, a, b => a * b

def plBOp : BOp → PlExpr → PlExpr → PlExpr
  | .add, a, b => .add a b
  | .sub, a, b => .sub a b
  | .mul, a, b => .mul a b

/-- Python binary operators on the modelled runtime values: integer
arithmetic, string concatenation, and the overloaded operators of engine
expressions (which also lift integer operands to literals). -/
def applyBin : BOp → PyVal → PyVal → Except PyErr PyVal
  | op, .int a, .int b => .ok (.int (intBOp op a b))
  | .add, .str a, .str b => .ok (.str (a ++ b))
  | op, .expr a, .expr b => .ok (.expr (plBOp op a b))
  | op, .expr a, .int n => .ok (.expr (plBOp op a (.lit n)))
  | op, .int n, .expr a => .ok (.expr (plBOp op (.lit n) a))
  | _, _, _ => .error (.typeErr "unsupported operand types")

mutual

/-- Evaluate a parsed Python expression in the namespace mapping pl to the
polars module.  Only the name pl resolves (see the deviation note above). -/
def pyEvalExpr : PyExpr → Except PyErr PyVal
  | .name s => if s = "pl" then .ok .module else .error (.nameErr s)
  | .num n => .ok (.int n)
  | .strLit s => .ok (.str s)
  | .attr e a =>
    match pyEvalExpr e with
    | .error err => .error err
    | .ok v => getattr v a
  | .call fn args =>
    match pyEvalExpr fn with
    | .error err => .error err
    | .ok vf =>
      match pyEvalArgs args with
      | .error err => .error err
      | .ok vs => applyCall vf vs
  | .binop op l r =>
    match pyEvalExpr l with
    | .error err => .error err
    | .ok vl =>
      match pyEvalExpr r with
      | .error err => .error err
      | .ok vr => applyBin op vl vr

def pyEvalArgs : List PyExpr → Except PyErr (List PyVal)
  | [] => .ok []
  | e :: es =>
    match pyEvalExpr e with
    | .error err => .error err
    | .ok v =>
      match pyEvalArgs es with
      | .error err => .error err
      | .ok vs => .ok (v :: vs)

end

/-- The eval call of trans_func: lex, parse a complete expression, evaluate. -/
def pyEval (s : String) : Except PyErr PyVal :=
  match lexTokens s with
  | .error e => .error e
  | .ok ts =>
    match parseAdd (4 * ts.length + 4) ts with
    | .error e => .error e
    | .ok (e, []) => pyEvalExpr e
    | .ok (_, _ :: _) => .error (.parseErr "unexpected trailing tokens")

/-- trans_func from src/py-polars/src/polars/_utils/TC_expressions.py:
rewrite every brace-word-brace occurrence into a pl.col reference, evaluate
the resulting text with Python eval in the namespace mapping pl to the polars
module, take the alias attribute of the result and call it on the requested
output name, and attach the aliased expression with with_columns. -/
def trans_func (df : DataFrame) (name : String) (value : String) :
    Except Err DataFrame :=
  match pyEval (rewritePlaceholders value) with
  | .error pe => .error pe.toErr
  | .ok v =>
    match getattr v "alias" with
    | .error pe => .error pe.toErr
    | .ok m =>
      match applyCall m [PyVal.str name] with
      | .error pe => .error pe.toErr
      | .ok (.expr e) => df.with_columns e
      | .ok _ => .error (Err.typeError "with_columns argument is not an expression")

/-! The scan path: src/py-polars/polars/io/hdf5/functions.py. -/

/-- The runtime shapes a caller can pass as the source argument (Python is
dynamically typed; the isinstance test in scan_hdf5 branches on the shape). -/
inductive PySource where
  | str (s : String)
  | path (p : String)
  | pathList (ps : List String)
  | bytes (bs : List Nat)
  | fileHandle (id : Nat)
  | pynone
deriving DecidableEq, Repr

/-- Modelled from the spec: `normalize_filepath` from polars._utils.various is
not under src/; per §4.1 and §6 it applies home-directory (tilde) expansion
and resolves relative paths against the current working context, here fixed to
/home/user and /cwd.  No claim depends on the particular context values. -/
def normalize_filepath (s : String) : String :=
  match s.data with
  | [] => "/cwd/"
  | c :: rest =>
    if c = '~' then "/home/user" ++ String.mk rest
    else if c = '/' then s
    else "/cwd/" ++ s

/-- The argument record received by the engine build-scan-plan primitive. -/
structure ScanPlan where
  source : Option String
  sources : List String
  subgroup : Option String
  format : Option String
deriving DecidableEq, Repr

/-- Modelled from the spec: `PyLazyFrame.new_from_hdf5` is the external
engine build-scan-plan primitive (§4.2, §6 engine.buildScanPlan), engine code
not under src/; it is O(1), performs no I/O, and records its arguments in the
plan handle. -/
def new_from_hdf5 (source : Option String) (sources : List String)
    (subgroup format : Option String) : ScanPlan :=
  ScanPlan.mk source sources subgroup format

/-- Modelled from the spec: a deferred frame is an unexecuted plan — a scan
node optionally narrowed by projection nodes (§3 DeferredFrame, §4.3 step 3:
value semantics, a new handle per transformation). -/
inductive LazyFrame where
  | scan (plan : ScanPlan)
  | selected (base : LazyFrame) (cs : List String)
deriving DecidableEq, Repr

/-- Modelled from the spec: the external engine realizes a scan plan as a
table (§6 engine.execute and engine.schemaOf agree on the columns); an
`Engine` assigns every plan its realized table. -/
abbrev Engine := ScanPlan → DataFrame

/-- Modelled from the spec: the lazy schema query (§6 engine.schemaOf),
obtained without materializing rows. -/
def LazyFrame.columns (lf : LazyFrame) (eng : Engine) : List String :=
  match lf with
  | .scan p => (eng p).names
  | .selected _ cs => cs

/-- Modelled from the spec: projection to a column subset (§6 engine.project);
returns a new handle, the original is not mutated. -/
def LazyFrame.select (lf : LazyFrame) (cs : List String) : LazyFrame :=
  .selected lf cs

/-- First-error-propagating traversal, matching the left-to-right evaluation
order of a Python list comprehension. -/
def mapExcept {α β : Type} (f : α → Except Err β) : List α → Except Err (List β)
  | [] => .ok []
  | a :: as =>
    match f a with
    | .error e => .error e
    | .ok b =>
      match mapExcept f as with
      | .error e => .error e
      | .ok bs => .ok (b :: bs)

/-- Modelled from the spec: materialization (§4.4, §6 engine.execute): execute
the scan against the engine and apply the projections in requested order; a
projected name the engine cannot supply surfaces as EngineExecutionError. -/
def LazyFrame.collect (lf : LazyFrame) (eng : Engine) : Except Err DataFrame :=
  match lf with
  | .scan p => .ok (eng p)
  | .selected base cs =>
    match collect base eng with
    | .error e => .error e
    | .ok df =>
      match mapExcept (fun n =>
        match df.getCol n with
        | some c => Except.ok c
        | none => Except.error (Err.engineExecutionError ("column not found: " ++ n))) cs with
      | .error e => .error e
      | .ok cols => .ok (DataFrame.mk cols)

/-- The exact message of the exception scan_hdf5 raises on a non-path source. -/
def scanErrMsg : String := "MyErr: path not str or path?"

/-- The helper _scan_hdf5_impl from functions.py: a list source is passed through the
sources argument with the single-source argument set to None; any other
source is passed through the single-source argument with an empty list. -/
def _scan_hdf5_impl (source : String ⊕ List String)
    (subgroup format : Option String) : LazyFrame :=
  match source with
  | .inr l => .scan (new_from_hdf5 none l subgroup format)
  | .inl s => .scan (new_from_hdf5 (some s) [] subgroup format)

/-- scan_hdf5 from functions.py: a str or Path source is normalized and
forwarded; every other shape raises AttributeError with the message above
(the list-normalization branch in the source is commented out). -/
def scan_hdf5 (source : PySource) (subgroup format : Option String) :
    Except Err LazyFrame :=
  match source with
  | .str s => .ok (_scan_hdf5_impl (Sum.inl (normalize_filepath s)) subgroup format)
  | .path p => .ok (_scan_hdf5_impl (Sum.inl (normalize_filepath p)) subgroup format)
  | _ => .error (.attributeError scanErrMsg)

/-- The two runtime shapes of the columns argument of read_hdf5 (the code
dispatches with is_int_sequence). -/
inductive Selector where
  | ints (l : List Int)
  | strs (l : List String)
deriving DecidableEq, Repr

/-- Python list indexing with an int subscript, as in the comprehension
lf.columns[i]: nonnegative indices address from the front, negative indices
address from the end, and anything else raises IndexError with the CPython
message. -/
def pyIndex {α : Type} (l : List α) (i : Int) : Except Err α :=
  if i < 0 then
    if i + l.length < 0 then .error (.indexError "list index out of range")
    else
      match l.get? (i + (l.length : Int)).toNat with
      | some x => .ok x
      | none => .error (.indexError "list index out of range")
  else
    match l.get? i.toNat with
    | some x => .ok x
    | none => .error (.indexError "list index out of range")

/-- read_hdf5 from functions.py: scan, then (only when a columns argument is
given) resolve an integer selector through lf.columns and select, and
finally collect. -/
def read_hdf5 (eng : Engine) (source : PySource)
    (subgroup format : Option String) (columns : Option Selector) :
    Except Err DataFrame :=
  match scan_hdf5 source subgroup format with
  | .error e => .error e
  | .ok lf =>
    match columns with
    | none => lf.collect eng
    | some (.ints is) =>
      match mapExcept (pyIndex (lf.columns eng)) is with
      | .error e => .error e
      | .ok names => (lf.select names).collect eng
    | some (.strs ss) => (lf.select ss).collect eng

/-- Resolution of one zero-based position per the spec wording of §4.3 step 1:
an out-of-range position fails with ColumnIndexOutOfRange naming the offending
index and the schema length.  This definition follows the SPEC text; it is the
spec side of the refinement comparison for the projection resolver. -/
def resolvePos (schema : List String) (i : Int) : Except Err String :=
  if 0 ≤ i then
    match schema.get? i.toNat with
    | some n => .ok n
    | none => .error (.columnIndexOutOfRange i schema.length)
  else .error (.columnIndexOutOfRange i schema.length)

/-- The spec surface operation selectColumns (§4.3, §6), written from the spec
text for the refinement claim: an absent selector is a no-op, a name selector
is applied as given, an integer selector is resolved against the current
schema and then applied. -/
def selectColumns (eng : Engine) (lf : LazyFrame) (sel : Option Selector) :
    Except Err LazyFrame :=
  match sel with
  | none => .ok lf
  | some (.strs ss) => .ok (lf.select ss)
  | some (.ints is) =>
    match mapExcept (resolvePos (lf.columns eng)) is with
    | .error e => .error e
    | .ok names => .ok (lf.select names)

/-- The manual three-step composition named by the spec: buildScan, then
selectColumns, then materialize (§6 readEager description). -/
def readComposed (eng : Engine) (source : PySource)
    (subgroup format : Option String) (sel : Option Selector) :
    Except Err DataFrame :=
  match scan_hdf5 source subgroup format with
  | .error e => .error e
  | .ok lf =>
    match selectColumns eng lf sel with
    | .error e => .error e
    | .ok lf2 => lf2.collect eng

/-- The plan scan_hdf5 builds for a plain string source. -/
def scanPlanOf (s : String) (subgroup format : Option String) : ScanPlan :=
  ScanPlan.mk (some (normalize_filepath s)) [] subgroup format

/-- True exactly on the source shapes the isinstance test of scan_hdf5
accepts. -/
def isPathLike : PySource → Bool
  | .str _ => true
  | .path _ => true
  | _ => false

/-! Concrete fixtures used by witnesses and counterexamples. -/

def colA : Column := Column.mk "a" [1, 2]

def colB : Column := Column.mk "b" [3, 4]

/-- The table of the spec test vector: integer columns a = [1,2], b = [3,4]. -/
def dfAB : DataFrame := DataFrame.mk [colA, colB]

/-- A concrete engine realizing every plan as the test table. -/
def engAB : Engine := fun _ => dfAB

/-- The frame scan_hdf5 builds for the source string data.h5. -/
def lfData : LazyFrame :=
  LazyFrame.scan (ScanPlan.mk (some "/cwd/data.h5") [] none none)

/-- The spec test template with two placeholders. -/
def tplAB : String := "\x7ba\x7d + \x7bb\x7d"

/-- A template referencing the absent column z. -/
def tplZ : String := "\x7bz\x7d"

/-- A template referencing the absent column z whose Python evaluation fails
before any schema binding: after rewriting, the attribute access on the
engine expression raises AttributeError. -/
def tplZfoo : String := "\x7bz\x7d.foo"

/-- A zero-placeholder template that is an engine literal expression. -/
def tplLit3 : String := "pl.lit(3)"

/-- A template outside the restricted expression grammar: it computes the
column name at evaluation time by Python string concatenation, a
general-evaluation construct that is neither a placeholder column reference
nor an engine operator applied to engine expressions. -/
def tplEscape : String := "pl.col(" ++ q ++ "a" ++ q ++ " + " ++ q ++ q ++ ")"

/-! Helper lemmas. -/

/-- No Python exception maps to the spec category UnsupportedExpressionToken. -/
theorem toErr_not_unsupported (pe : PyErr) : pe.toErr.isUnsupportedTok = false := by
  cases pe <;> rfl

theorem any_name_iff (cols : List Column) (nm : String) :
    cols.any (fun c => decide (c.name = nm)) = true ↔ nm ∈ cols.map Column.name := by
  simp [List.any_eq_true, List.mem_map]

theorem find?_map_replace (cols : List Column) (nm : String) (vals : List Int)
    (h : cols.any (fun c => decide (c.name = nm)) = true) :
    (cols.map (fun c => if c.name = nm then Column.mk nm vals else c)).find?
      (fun c => decide (c.name = nm)) = some (Column.mk nm vals) := by
  induction cols with
  | nil => simp at h
  | cons c cs ih =>
    by_cases hc : c.name = nm
    · simp [hc, List.find?]
    · have h2 : cs.any (fun c => decide (c.name = nm)) = true := by
        simpa [List.any_cons, hc] using h
      simpa [hc, List.find?] using ih h2

theorem find?_append_new (cols : List Column) (nm : String) (vals : List Int)
    (h : cols.any (fun c => decide (c.name = nm)) = false) :
    (cols ++ [Column.mk nm vals]).find? (fun c => decide (c.name = nm)) =
      some (Column.mk nm vals) := by
  induction cols with
  | nil => simp [List.find?]
  | cons c cs ih =>
    have hc : ¬ c.name = nm := by
      intro he; simp [List.any_cons, he] at h
    have h2 : cs.any (fun c => decide (c.name = nm)) = false := by
      simpa [List.any_cons, hc] using h
    simpa [hc, List.find?] using ih h2

/-- Attaching a column under a name makes that column retrievable by name. -/
theorem getCol_updateOrAppend (cols : List Column) (nm : String) (vals : List Int) :
    (DataFrame.mk (updateOrAppend cols nm vals)).getCol nm = some (Column.mk nm vals) := by
  unfold DataFrame.getCol updateOrAppend
  by_cases h : cols.any (fun c => decide (c.name = nm)) = true
  · rw [if_pos h]
    exact find?_map_replace cols nm vals h
  · rw [if_neg h]
    exact find?_append_new cols nm vals (by revert h; cases cols.any (fun c => decide (c.name = nm)) <;> simp)

/-- Inversion of a successful trans_func call: evaluation produced an engine
expression and with_columns attached its alias. -/
theorem trans_func_ok_inv (df df' : DataFrame) (nm t : String)
    (h : trans_func df nm t = Except.ok df') :
    ∃ e : PlExpr, pyEval (rewritePlaceholders t) = Except.ok (PyVal.expr e) ∧
      df.with_columns (PlExpr.alias e nm) = Except.ok df' := by
  unfold trans_func at h
  cases hpe : pyEval (rewritePlaceholders t) with
  | error pe => rw [hpe] at h; exact Except.noConfusion h
  | ok v =>
    rw [hpe] at h
    cases v with
    | expr e0 => exact ⟨e0, rfl, h⟩
    | module => exact Except.noConfusion h
    | colFn => exact Except.noConfusion h
    | litFn => exact Except.noConfusion h
    | boundAlias e0 => exact Except.noConfusion h
    | int n => exact Except.noConfusion h
    | str s => exact Except.noConfusion h

/-- Inversion of a successful with_columns call. -/
theorem with_columns_ok_inv (df df' : DataFrame) (e : PlExpr)
    (h : df.with_columns e = Except.ok df') :
    firstMissing e.refs df.names = none ∧
      df' = DataFrame.mk (updateOrAppend df.cols e.outputName (e.evalPure df)) := by
  unfold DataFrame.with_columns at h
  cases hfm : firstMissing e.refs df.names with
  | some c => rw [hfm] at h; exact Except.noConfusion h
  | none => rw [hfm] at h; exact ⟨rfl, (Except.ok.inj h).symm⟩

/-! Claim theorems: the placeholder expression compiler. -/

/-- C4 (confirmed): for the template with placeholders a plus b against the
table with integer columns a = [1,2] and b = [3,4], trans_func returns a
table containing the output column [4,6] under the requested output name. -/
theorem c4_theorem (nm : String) :
    ∃ df' : DataFrame, trans_func dfAB nm tplAB = Except.ok df' ∧
      df'.getCol nm = some (Column.mk nm [4, 6]) :=
  ⟨DataFrame.mk (updateOrAppend dfAB.cols nm [4, 6]), rfl,
    getCol_updateOrAppend dfAB.cols nm [4, 6]⟩

/-- C6 (confirmed, engine step modelled from the spec): a successful
trans_func call changes the input table in exactly one column: when the
output name already names a column, that column is replaced in place (same
position, all other columns unchanged in content and order); otherwise the
new column is appended at the end of the column ordering. -/
theorem c6_theorem (df df' : DataFrame) (nm t : String)
    (h : trans_func df nm t = Except.ok df') :
    ∃ vals : List Int,
      (nm ∈ df.names →
        df'.cols = df.cols.map (fun c => if c.name = nm then Column.mk nm vals else c)) ∧
      (nm ∉ df.names → df'.cols = df.cols ++ [Column.mk nm vals]) := by
  obtain ⟨e, _, hwc⟩ := trans_func_ok_inv df df' nm t h
  obtain ⟨_, rfl⟩ := with_columns_ok_inv df df' (PlExpr.alias e nm) hwc
  refine ⟨(PlExpr.alias e nm).evalPure df, ?_, ?_⟩
  · intro hmem
    show updateOrAppend df.cols nm _ = _
    rw [updateOrAppend, if_pos ((any_name_iff df.cols nm).mpr hmem)]
  · intro hmem
    show updateOrAppend df.cols nm _ = _
    rw [updateOrAppend, if_neg (fun hc => hmem ((any_name_iff df.cols nm).mp hc))]

/-- Witness for C6 at a concrete input: the template pl.lit(3) against the
two-column test table, output name c, appends the constant column. -/
theorem c6_witness :
    ∃ vals : List Int,
      ("c" ∈ dfAB.names →
        (DataFrame.mk [colA, colB, Column.mk "c" [3, 3]]).cols =
          dfAB.cols.map (fun c => if c.name = "c" then Column.mk "c" vals else c)) ∧
      ("c" ∉ dfAB.names →
        (DataFrame.mk [colA, colB, Column.mk "c" [3, 3]]).cols =
          dfAB.cols ++ [Column.mk "c" vals]) :=
  c6_theorem dfAB (DataFrame.mk [colA, colB, Column.mk "c" [3, 3]]) "c" tplLit3 rfl

/-- C7 is falsified as stated: the template brace z brace dot foo references
the absent column z, yet the call fails with an AttributeError raised inside
Python evaluation of the rewritten text (the engine expression object has no
attribute foo), not with an UnknownColumnReference naming z. -/
theorem c7_counterexample :
    trans_func dfAB "c" tplZfoo =
      Except.error (Err.attributeError "Expr object has no attribute foo") ∧
    Err.attributeError "Expr object has no attribute foo" ≠
      Err.unknownColumnReference "z" dfAB.names :=
  ⟨rfl, by decide⟩

/-- C7 (corrected; binding step modelled from the spec): for every template
whose rewritten text evaluates to an engine expression referencing a column
absent from the schema, trans_func fails with UnknownColumnReference naming a
missing referenced column and the available schema, the binding check running
before expression evaluation; a template referencing a missing column can
instead fail earlier, inside Python evaluation itself, with an ordinary
Python error (see the counterexample). -/
theorem c7_theorem (df : DataFrame) (nm t : String) (e : PlExpr)
    (hev : pyEval (rewritePlaceholders t) = Except.ok (PyVal.expr e))
    (hmiss : ∃ c ∈ e.refs, c ∉ df.names) :
    ∃ c ∈ e.refs, c ∉ df.names ∧
      trans_func df nm t =
        Except.error (Err.unknownColumnReference c df.names) := by
  cases hfm : firstMissing e.refs df.names with
  | none =>
    exfalso
    obtain ⟨c, hc, hcn⟩ := hmiss
    have hfm2 : e.refs.find? (fun x => decide (x ∉ df.names)) = none := hfm
    exact (List.find?_eq_none.mp hfm2 c hc) (decide_eq_true hcn)
  | some c =>
    have hfm2 : e.refs.find? (fun x => decide (x ∉ df.names)) = some c := hfm
    have hp := List.find?_some hfm2
    refine ⟨c, List.mem_of_find?_eq_some hfm2, of_decide_eq_true hp, ?_⟩
    unfold trans_func
    rw [hev]
    show df.with_columns (PlExpr.alias e nm) = _
    unfold DataFrame.with_columns
    have h2 : firstMissing (PlExpr.alias e nm).refs df.names = some c := hfm
    rw [h2]

/-- Witness for C7 (corrected) at the template brace z brace on the test
table: the evaluated expression is the column reference z, which is absent,
and the call fails naming z and the schema. -/
theorem c7_witness :
    ∃ c ∈ (PlExpr.col "z").refs, c ∉ dfAB.names ∧
      trans_func dfAB "c" tplZ =
        Except.error (Err.unknownColumnReference c dfAB.names) :=
  c7_theorem dfAB "c" tplZ (PlExpr.col "z") rfl ⟨"z", by decide, by decide⟩

/-- C8 is falsified as stated: the zero-placeholder template consisting of
the bare literal 3 does not succeed — eval returns the Python int 3, whose
alias attribute access raises AttributeError before any column is built. -/
theorem c8_counterexample :
    trans_func dfAB "c" "3" =
      Except.error (Err.attributeError "int object has no attribute alias") := rfl

/-- C8 (corrected): a zero-placeholder template need not succeed; one that
evaluates to a binding engine literal does — for pl.lit(3) the call succeeds
on every table and the output column holds the constant 3 in every row. -/
theorem c8_amended (df : DataFrame) (nm : String) :
    ∃ df' : DataFrame, trans_func df nm tplLit3 = Except.ok df' ∧
      df'.getCol nm = some (Column.mk nm (List.replicate df.height 3)) :=
  ⟨DataFrame.mk (updateOrAppend df.cols nm (List.replicate df.height 3)), rfl,
    getCol_updateOrAppend df.cols nm (List.replicate df.height 3)⟩

/-- C1 is falsified as stated: the template pl.col( quote a quote + quote
quote ) computes its column name by runtime string concatenation — a
construct outside the restricted grammar of placeholder column references
and engine operators — yet trans_func evaluates it successfully and returns
a derived column, instead of failing with UnsupportedExpressionToken. -/
theorem c1_counterexample :
    trans_func dfAB "c" tplEscape =
      Except.ok (DataFrame.mk [colA, colB, Column.mk "c" [1, 2]]) := rfl

/-- C1 (corrected): trans_func delegates the rewritten template to the
general Python evaluator; no failure it can produce is the spec error
UnsupportedExpressionToken — failures surface as ordinary Python errors
(name, attribute, type, or syntax errors) or as the engine binding error. -/
theorem c1_amended (df : DataFrame) (nm t : String) (e : Err)
    (h : trans_func df nm t = Except.error e) : e.isUnsupportedTok = false := by
  unfold trans_func DataFrame.with_columns at h
  repeat' split at h
  all_goals try exact Except.noConfusion h
  all_goals injection h with h1
  all_goals subst h1
  all_goals first
    | exact toErr_not_unsupported _
    | rfl

/-- Witness for C1 (corrected) at a concrete failing input: the template os
fails with NameError, which is not UnsupportedExpressionToken. -/
theorem c1_witness : (Err.nameError "os").isUnsupportedTok = false :=
  c1_amended dfAB "c" "os" (Err.nameError "os") rfl

/-! Claim theorems: the scan path. -/

/-- Every failure of Python list indexing carries the one fixed message,
which names neither the index nor the length. -/
theorem pyIndex_err_shape {α : Type} (l : List α) (i : Int) (e : Err)
    (h : pyIndex l i = Except.error e) :
    e = Err.indexError "list index out of range" := by
  unfold pyIndex at h
  split at h
  · split at h
    · exact (Except.error.inj h).symm
    · split at h
      · exact Except.noConfusion h
      · exact (Except.error.inj h).symm
  · split at h
    · exact Except.noConfusion h
    · exact (Except.error.inj h).symm

/-- An index at or beyond the length raises IndexError. -/
theorem pyIndex_oor {α : Type} (l : List α) (i : Int)
    (h : (l.length : Int) ≤ i) :
    pyIndex l i = Except.error (Err.indexError "list index out of range") := by
  unfold pyIndex
  have h0 : ¬ i < 0 := by omega
  rw [if_neg h0, List.get?_eq_none.mpr (by omega : l.length ≤ i.toNat)]

/-- If any position of the selector is at or beyond the schema length, the
whole comprehension raises IndexError. -/
theorem mapExcept_pyIndex_oor {α : Type} (l : List α) (is : List Int) (i : Int)
    (hmem : i ∈ is) (h : (l.length : Int) ≤ i) :
    mapExcept (pyIndex l) is =
      Except.error (Err.indexError "list index out of range") := by
  induction is with
  | nil => cases hmem
  | cons j js ih =>
    unfold mapExcept
    cases hj : pyIndex l j with
    | error e => rw [pyIndex_err_shape l j e hj]
    | ok b =>
      rcases List.mem_cons.mp hmem with rfl | hmem2
      · rw [pyIndex_oor _ _ h] at hj; exact Except.noConfusion hj
      · rw [ih hmem2]

/-- C3 is falsified as stated: on the two-column test schema and position 5,
read_hdf5 fails with the bare CPython IndexError message, which is not a
ColumnIndexOutOfRange value naming 5 and 2 — indeed the message contains no
digit at all.  (That no partial table is returned holds: the result is an
error.) -/
theorem c3_counterexample :
    read_hdf5 engAB (PySource.str "data.h5") none none (some (Selector.ints [5])) =
      Except.error (Err.indexError "list index out of range") ∧
    Err.indexError "list index out of range" ≠ Err.columnIndexOutOfRange 5 2 ∧
    "list index out of range".data.all (fun c => !c.isDigit) = true :=
  ⟨rfl, by decide, by decide⟩

/-- C3 (corrected): an integer selector containing a position at or beyond
the schema length makes read_hdf5 fail with IndexError carrying the generic
message list index out of range (naming neither the index nor the schema
length), and no partially projected table is returned. -/
theorem c3_amended (eng : Engine) (s : String) (sg fm : Option String)
    (is : List Int) (i : Int) (hmem : i ∈ is)
    (hoor : (((eng (scanPlanOf s sg fm)).names.length : Int)) ≤ i) :
    read_hdf5 eng (PySource.str s) sg fm (some (Selector.ints is)) =
      Except.error (Err.indexError "list index out of range") := by
  have h1 : read_hdf5 eng (PySource.str s) sg fm (some (Selector.ints is)) =
      match mapExcept (pyIndex ((eng (scanPlanOf s sg fm)).names)) is with
      | .error e => .error e
      | .ok ns =>
        ((LazyFrame.scan (scanPlanOf s sg fm)).select ns).collect eng := rfl
  rw [h1, mapExcept_pyIndex_oor _ is i hmem hoor]

/-- Witness for C3 (corrected) at a concrete input. -/
theorem c3_witness :
    read_hdf5 engAB (PySource.str "df.h5") none none (some (Selector.ints [2, 5])) =
      Except.error (Err.indexError "list index out of range") :=
  c3_amended engAB "df.h5" none none [2, 5] 5 (by decide) (by decide)

/-- C2 is falsified as stated: an ordered sequence of path-like values does
not construct a scan — scan_hdf5 raises its AttributeError (the commented-out
list branch never runs), where the claim promises success on sequences. -/
theorem c2_counterexample :
    scan_hdf5 (PySource.pathList ["a.h5", "b.h5"]) none none =
      Except.error (Err.attributeError scanErrMsg) := rfl

/-- C2 (corrected): scan_hdf5 constructs a scan exactly for a single
path-like source (str or Path); every other shape — including an ordered
sequence of paths, raw bytes, a stream handle, or None — fails immediately
with the AttributeError message MyErr: path not str or path? (the error the
spec names InvalidSourceKind), before any further interpretation. -/
theorem c2_amended (src : PySource) (sg fm : Option String) :
    ((∃ lf, scan_hdf5 src sg fm = Except.ok lf) ↔ isPathLike src = true) ∧
    (isPathLike src = true ∨
      scan_hdf5 src sg fm = Except.error (Err.attributeError scanErrMsg)) := by
  cases src <;> simp [scan_hdf5, isPathLike]

/-- C9 (confirmed): for every source the scan builder accepts, the engine
build-scan-plan primitive receives the source through exactly one of its two
source arguments: the single-source argument non-empty with an empty source
list, or (for a forwarded list, which scan_hdf5 itself never produces) a None
single source with a non-empty list. -/
theorem c9_theorem (src : PySource) (sg fm : Option String) (lf : LazyFrame)
    (h : scan_hdf5 src sg fm = Except.ok lf) :
    ∃ s1 srcs, lf = LazyFrame.scan (new_from_hdf5 s1 srcs sg fm) ∧
      ((s1 ≠ none ∧ srcs = []) ∨ (s1 = none ∧ srcs ≠ [])) := by
  cases src with
  | str s =>
    exact ⟨some (normalize_filepath s), [], (Except.ok.inj h).symm,
      Or.inl ⟨by simp, rfl⟩⟩
  | path p =>
    exact ⟨some (normalize_filepath p), [], (Except.ok.inj h).symm,
      Or.inl ⟨by simp, rfl⟩⟩
  | pathList ps => exact Except.noConfusion h
  | bytes bs => exact Except.noConfusion h
  | fileHandle id => exact Except.noConfusion h
  | pynone => exact Except.noConfusion h

/-- Witness for C9 at a concrete accepted source. -/
theorem c9_witness :
    ∃ s1 srcs, lfData = LazyFrame.scan (new_from_hdf5 s1 srcs none none) ∧
      ((s1 ≠ none ∧ srcs = []) ∨ (s1 = none ∧ srcs ≠ [])) :=
  c9_theorem (PySource.str "data.h5") none none lfData rfl

/-- A position that is in range for the schema resolves identically in the
code (Python indexing) and in the spec resolver. -/
theorem pyIndex_resolvePos_eq (cols : List String) (i : Int)
    (h0 : 0 ≤ i) (hlt : i < (cols.length : Int)) :
    pyIndex cols i = resolvePos cols i := by
  have hn : ¬ i < 0 := by omega
  have hin : i.toNat < cols.length := by omega
  unfold pyIndex resolvePos
  rw [if_neg hn, if_pos h0, List.get?_eq_get hin]

/-- Under an all-in-range selector the comprehension and the spec resolver
agree. -/
theorem mapExcept_resolve_eq (cols : List String) (is : List Int)
    (h : ∀ i ∈ is, 0 ≤ i ∧ i < (cols.length : Int)) :
    mapExcept (pyIndex cols) is = mapExcept (resolvePos cols) is := by
  induction is with
  | nil => rfl
  | cons j js ih =>
    obtain ⟨h0, hlt⟩ := h j (List.mem_cons_self _ _)
    unfold mapExcept
    rw [pyIndex_resolvePos_eq cols j h0 hlt,
      ih (fun i hi => h i (List.mem_cons_of_mem _ hi))]

/-- C5 (confirmed; the engine and the spec-side selectColumns are stated per
§4.3/§6): on a valid source, options, and selector (integer positions in
range), read_hdf5 returns exactly what the manual composition buildScan then
selectColumns then materialize returns. -/
theorem c5_theorem (eng : Engine) (src : PySource) (sg fm : Option String)
    (sel : Option Selector)
    (hvalid : ∀ lf is, scan_hdf5 src sg fm = Except.ok lf →
      sel = some (Selector.ints is) →
      ∀ i ∈ is, 0 ≤ i ∧ i < ((lf.columns eng).length : Int)) :
    read_hdf5 eng src sg fm sel = readComposed eng src sg fm sel := by
  cases hscan : scan_hdf5 src sg fm with
  | error e => simp only [read_hdf5, readComposed, hscan]
  | ok lf =>
    cases sel with
    | none => simp only [read_hdf5, readComposed, selectColumns, hscan]
    | some s =>
      cases s with
      | strs ss => simp only [read_hdf5, readComposed, selectColumns, hscan]
      | ints is =>
        have heq : mapExcept (pyIndex (lf.columns eng)) is =
            mapExcept (resolvePos (lf.columns eng)) is :=
          mapExcept_resolve_eq _ is (hvalid lf is hscan rfl)
        simp only [read_hdf5, readComposed, selectColumns, hscan, heq]
        cases mapExcept (resolvePos (lf.columns eng)) is <;> rfl

/-- Witness for C5 at a concrete valid input: the full-range integer
selector on the two-column engine. -/
theorem c5_witness :
    read_hdf5 engAB (PySource.str "data.h5") none none
        (some (Selector.ints [0, 1])) =
      readComposed engAB (PySource.str "data.h5") none none
        (some (Selector.ints [0, 1])) :=
  c5_theorem engAB (PySource.str "data.h5") none none
    (some (Selector.ints [0, 1]))
    (by
      intro lf is h1 h2
      obtain rfl : lfData = lf := Except.ok.inj h1
      have h3 : [(0 : Int), 1] = is := by
        injection Option.some.inj h2
      subst h3
      decide)

/-- A negative position -k with k between 1 and the length resolves to the
k-th element from the end. -/
theorem pyIndex_neg {α : Type} (l : List α) (k : Nat) (d : α)
    (h1 : 1 ≤ k) (h2 : k ≤ l.length) :
    pyIndex l (-(k : Int)) = Except.ok (l.getD (l.length - k) d) := by
  have hneg : (-(k : Int)) < 0 := by omega
  have hnk : l.length - k < l.length := by omega
  have htn : ((-(k : Int)) + l.length).toNat = l.length - k := by omega
  unfold pyIndex
  rw [if_pos hneg, if_neg (by omega : ¬ (-(k : Int)) + l.length < 0),
    htn, List.get?_eq_get hnk, List.getD_eq_getElem?_getD l,
    List.getElem?_eq_getElem hnk]
  rfl

/-- C10 (confirmed): a negative position -k with 1 <= k <= schema length is
accepted by the integer-selector resolution of read_hdf5 — it resolves, via
Python negative indexing, to the k-th column name counted from the end of
the schema — and projecting by that position equals projecting by the
resolved name. -/
theorem c10_theorem (eng : Engine) (s : String) (sg fm : Option String)
    (k : Nat) (h1 : 1 ≤ k)
    (h2 : k ≤ (eng (scanPlanOf s sg fm)).names.length) :
    pyIndex ((eng (scanPlanOf s sg fm)).names) (-(k : Int)) =
      Except.ok ((eng (scanPlanOf s sg fm)).names.getD
        ((eng (scanPlanOf s sg fm)).names.length - k) "") ∧
    read_hdf5 eng (PySource.str s) sg fm (some (Selector.ints [-(k : Int)])) =
      read_hdf5 eng (PySource.str s) sg fm (some (Selector.strs
        [(eng (scanPlanOf s sg fm)).names.getD
          ((eng (scanPlanOf s sg fm)).names.length - k) ""])) := by
  have hpi := pyIndex_neg ((eng (scanPlanOf s sg fm)).names) k "" h1 h2
  refine ⟨hpi, ?_⟩
  have hL : read_hdf5 eng (PySource.str s) sg fm
      (some (Selector.ints [-(k : Int)])) =
      match mapExcept (pyIndex ((eng (scanPlanOf s sg fm)).names)) [-(k : Int)] with
      | .error e => .error e
      | .ok ns =>
        ((LazyFrame.scan (scanPlanOf s sg fm)).select ns).collect eng := rfl
  have hm : mapExcept (pyIndex ((eng (scanPlanOf s sg fm)).names)) [-(k : Int)] =
      Except.ok [(eng (scanPlanOf s sg fm)).names.getD
        ((eng (scanPlanOf s sg fm)).names.length - k) ""] := by
    unfold mapExcept
    rw [hpi]
    rfl
  rw [hL, hm]
  rfl

/-- Witness for C10 at a concrete input: position -1 on the two-column
engine resolves to the last column b. -/
theorem c10_witness :
    pyIndex ((engAB (scanPlanOf "data.h5" none none)).names) (-(1 : Int)) =
      Except.ok ((engAB (scanPlanOf "data.h5" none none)).names.getD
        ((engAB (scanPlanOf "data.h5" none none)).names.length - 1) "") ∧
    read_hdf5 engAB (PySource.str "data.h5") none none
        (some (Selector.ints [-(1 : Int)])) =
      read_hdf5 engAB (PySource.str "data.h5") none none
        (some (Selector.strs
          [(engAB (scanPlanOf "data.h5" none none)).names.getD
            ((engAB (scanPlanOf "data.h5" none none)).names.length - 1) ""])) :=
  c10_theorem engAB "data.h5" none none 1 (by decide) (by decide)

end PolarsHdf5
